import Mathlib

/-!
Verification development for the NextWork RAG API (`src/app.py`).

The service is a single FastAPI application with two handlers:

* `POST /query` (function `query`, lines 9-19): looks up the nearest
  document for the question `q` in a chromadb collection
  (`collection.query` with `query_texts=[q]` and `n_results=1`), extracts
  a context string from the result, composes a prompt, calls
  `ollama.generate` with model `tinyllama`, and returns a dict with an
  `answer` key holding the generated `response` text.
* `GET /` (function `root`, lines 20-29): returns a fixed JSON payload.

The embedding below is a shallow one.  The two external collaborators
(the chromadb collection and the ollama client) are parameters of the
handler: functions that either return a result or raise an error,
modelled with `Except`.  The handler additionally records the sequence
of outbound calls it performs (`Call` trace), so that frame properties
(no writes, exactly one lookup) can be stated.  Python exceptions are
modelled as `Except.error`; the out-of-bounds subscript that
`results["documents"][0][0]` can raise is the dedicated error
`HandlerError.indexError`.
-/

/-- Shape of the chromadb `collection.query` result that `src/app.py`
line 12 consumes: the `documents` field, a list of per-query lists of
document texts. -/
structure StoreResult where
  documents : List (List String)
deriving DecidableEq

/-- Shape of the `ollama.generate` result that `src/app.py` line 19
consumes: the `response` field, the generated text. -/
structure GenResult where
  response : String
deriving DecidableEq

/-- The JSON body returned by a successful `POST /query`: a dict with
the single key `answer`, whose value is a string. -/
structure Response where
  answer : String
deriving DecidableEq

/-- Outbound calls the handler can make to its external collaborators.
`storeQuery` is `collection.query(query_texts=..., n_results=...)`;
`genCall` is `ollama.generate(model=..., prompt=...)`.  `storeWrite`
stands for any write to the document store (chromadb `add`, `update`,
`delete`); the source never performs one, and the trace-based theorems
below prove that the handler never emits it. -/
inductive Call where
  | storeQuery (queryTexts : List String) (nResults : Nat)
  | storeWrite
  | genCall (model : String) (prompt : String)
deriving DecidableEq

/-- Errors a `POST /query` request can terminate with: an exception
raised by the store lookup, the IndexError raised by
`results["documents"][0][0]` when the first inner list is empty, or an
exception raised by the generation call. -/
inductive HandlerError (ε : Type) where
  | storeError (e : ε)
  | indexError
  | genError (e : ε)
deriving DecidableEq

/-- Line 12 of `src/app.py`:
`context = results["documents"][0][0] if results["documents"] else ""`.
If the `documents` list is empty (falsy), the context is `""`.
Otherwise Python evaluates `results["documents"][0][0]`, which yields
the first text of the first inner list, or raises IndexError (modelled
as `none`) when that inner list is empty. -/
def extractContext (results : StoreResult) : Option String :=
  match results.documents with
  | [] => some ""
  | d :: _ => d.head?

/-- Line 16 of `src/app.py`: the f-string
`f"Context:\n{context}\n\nQuestion: {q}\n\nAnswer clearly and concisely:"`. -/
def promptTemplate (context q : String) : String :=
  "Context:\n" ++ context ++ "\n\nQuestion: " ++ q ++ "\n\nAnswer clearly and concisely:"

/-- Lines 9-19 of `src/app.py`, the `POST /query` handler.

`store` models `collection.query` (arguments: `query_texts`,
`n_results`); `gen` models `ollama.generate` (arguments: `model`,
`prompt`).  Either may raise, modelled by `Except.error`.  The result
pairs the trace of outbound calls made (in order) with either the
response dict or the error that terminated the request. -/
def query {ε : Type} (store : List String → Nat → Except ε StoreResult)
    (gen : String → String → Except ε GenResult) (q : String) :
    List Call × Except (HandlerError ε) Response :=
  match store [q] 1 with
  | Except.error e =>
      ([Call.storeQuery [q] 1], Except.error (HandlerError.storeError e))
  | Except.ok results =>
      match extractContext results with
      | none => ([Call.storeQuery [q] 1], Except.error HandlerError.indexError)
      | some context =>
          match gen "tinyllama" (promptTemplate context q) with
          | Except.error e =>
              ([Call.storeQuery [q] 1,
                Call.genCall "tinyllama" (promptTemplate context q)],
               Except.error (HandlerError.genError e))
          | Except.ok answer =>
              ([Call.storeQuery [q] 1,
                Call.genCall "tinyllama" (promptTemplate context q)],
               Except.ok (Response.mk answer.response))

/-- The JSON body returned by `GET /`. -/
structure RootResponse where
  message : String
  endpoints : List (String × String)
deriving DecidableEq

/-- Lines 20-29 of `src/app.py`, the `GET /` handler: a constant payload. -/
def root : RootResponse :=
  RootResponse.mk "NextWork RAG API is running"
    [("POST /query", "Query the knowledge base with a question"),
     ("GET /docs", "Interactive API documentation (Swagger UI)"),
     ("GET /redoc", "Alternative API documentation (ReDoc)")]

/-- Recognizer for store lookup calls in a trace. -/
def isStoreLookup : Call → Bool
  | Call.storeQuery _ _ => true
  | _ => false

/-- Boolean substring check on character lists: `hasSub m s` is `true`
iff `m` occurs contiguously inside `s`. -/
def hasSub (m : List Char) : List Char → Bool
  | [] => m.isEmpty
  | c :: t => m.isPrefixOf (c :: t) || hasSub m t

theorem isPrefixOf_append_self (m post : List Char) : m.isPrefixOf (m ++ post) = true := by
  induction m with
  | nil => simp [List.isPrefixOf]
  | cons c t ih => simp [List.isPrefixOf, ih]

theorem hasSub_append_self (m post : List Char) : hasSub m (m ++ post) = true := by
  cases hm : m ++ post with
  | nil =>
      have h0 : m = [] := (List.append_eq_nil.mp hm).1
      simp [hasSub, h0]
  | cons c t =>
      show (m.isPrefixOf (c :: t) || hasSub m t) = true
      rw [← hm, isPrefixOf_append_self, Bool.true_or]

theorem hasSub_of_decomp (m s : List Char)
    (h : ∃ pre post, s = pre ++ m ++ post) : hasSub m s = true := by
  obtain ⟨pre, post, rfl⟩ := h
  induction pre with
  | nil => simpa using hasSub_append_self m post
  | cons c t ih =>
      rw [List.cons_append]
      show (m.isPrefixOf (c :: (t ++ m ++ post)) || hasSub m (t ++ m ++ post)) = true
      rw [ih, Bool.or_true]

theorem query_store_error {ε : Type} (store : List String → Nat → Except ε StoreResult)
    (gen : String → String → Except ε GenResult) (q : String) (e : ε)
    (hs : store [q] 1 = Except.error e) :
    query store gen q = ([Call.storeQuery [q] 1], Except.error (HandlerError.storeError e)) := by
  simp [query, hs]

theorem query_extract_none {ε : Type} (store : List String → Nat → Except ε StoreResult)
    (gen : String → String → Except ε GenResult) (q : String) (r : StoreResult)
    (hs : store [q] 1 = Except.ok r) (hc : extractContext r = none) :
    query store gen q = ([Call.storeQuery [q] 1], Except.error HandlerError.indexError) := by
  simp [query, hs, hc]

theorem query_gen_error {ε : Type} (store : List String → Nat → Except ε StoreResult)
    (gen : String → String → Except ε GenResult) (q : String) (r : StoreResult)
    (ctx : String) (e : ε) (hs : store [q] 1 = Except.ok r)
    (hc : extractContext r = some ctx)
    (hg : gen "tinyllama" (promptTemplate ctx q) = Except.error e) :
    query store gen q
      = ([Call.storeQuery [q] 1, Call.genCall "tinyllama" (promptTemplate ctx q)],
         Except.error (HandlerError.genError e)) := by
  simp [query, hs, hc, hg]

theorem query_gen_ok {ε : Type} (store : List String → Nat → Except ε StoreResult)
    (gen : String → String → Except ε GenResult) (q : String) (r : StoreResult)
    (ctx : String) (g : GenResult) (hs : store [q] 1 = Except.ok r)
    (hc : extractContext r = some ctx)
    (hg : gen "tinyllama" (promptTemplate ctx q) = Except.ok g) :
    query store gen q
      = ([Call.storeQuery [q] 1, Call.genCall "tinyllama" (promptTemplate ctx q)],
         Except.ok (Response.mk g.response)) := by
  simp [query, hs, hc, hg]

/-- C1: for every question `q`, if the vector store's query result
contains no match (an empty `documents` list), then the context used in
the prompt passed to the generation backend is the empty string, and
the request completes without error: the empty result is a defined
fallback, not an error, so whenever the generation backend returns
normally the request returns its response. -/
theorem c1_empty_result_empty_context {ε : Type}
    (store : List String → Nat → Except ε StoreResult)
    (gen : String → String → Except ε GenResult) (q : String) (r : StoreResult)
    (hs : store [q] 1 = Except.ok r) (hd : r.documents = []) :
    extractContext r = some "" ∧
    Call.genCall "tinyllama" (promptTemplate "" q) ∈ (query store gen q).1 ∧
    (∀ g, gen "tinyllama" (promptTemplate "" q) = Except.ok g →
      (query store gen q).2 = Except.ok (Response.mk g.response)) := by
  have hc : extractContext r = some "" := by
    rw [extractContext, hd]
  refine ⟨hc, ?_, ?_⟩
  · cases hg : gen "tinyllama" (promptTemplate "" q) with
    | error e => rw [query_gen_error store gen q r "" e hs hc hg]; simp
    | ok g => rw [query_gen_ok store gen q r "" g hs hc hg]; simp
  · intro g hg
    rw [query_gen_ok store gen q r "" g hs hc hg]

/-- Witness for C1 at a concrete empty-store result, question `"q0"`
and an echoing generation backend. -/
theorem c1_empty_result_empty_context_witness :
    (query (fun _ _ => (Except.ok (StoreResult.mk []) : Except Unit StoreResult))
        (fun _ p => Except.ok (GenResult.mk p)) "q0").2
      = Except.ok (Response.mk (GenResult.mk (promptTemplate "" "q0")).response) :=
  (c1_empty_result_empty_context (fun _ _ => Except.ok (StoreResult.mk []))
      (fun _ p => Except.ok (GenResult.mk p)) "q0" (StoreResult.mk []) rfl rfl).2.2
    (GenResult.mk (promptTemplate "" "q0")) rfl

/-- C2: for every question `q` and every store result whose first
document list is non-empty with first text `T`, the prompt string sent
to the generation backend contains `T` verbatim, and the literal
question `q` appears in the prompt after that occurrence of `T`: the
prompt in the emitted generation call decomposes as
`pre ++ T ++ mid ++ q ++ post`. -/
theorem c2_prompt_contains_text_then_question {ε : Type}
    (store : List String → Nat → Except ε StoreResult)
    (gen : String → String → Except ε GenResult) (q T : String)
    (rest : List String) (ds : List (List String)) (r : StoreResult)
    (hs : store [q] 1 = Except.ok r) (hd : r.documents = (T :: rest) :: ds) :
    ∃ pre mid post : String,
      Call.genCall "tinyllama" (pre ++ T ++ mid ++ q ++ post) ∈ (query store gen q).1 := by
  have hc : extractContext r = some T := by
    rw [extractContext, hd]
    rfl
  refine ⟨"Context:\n", "\n\nQuestion: ", "\n\nAnswer clearly and concisely:", ?_⟩
  show Call.genCall "tinyllama" (promptTemplate T q) ∈ (query store gen q).1
  cases hg : gen "tinyllama" (promptTemplate T q) with
  | error e => rw [query_gen_error store gen q r T e hs hc hg]; simp
  | ok g => rw [query_gen_ok store gen q r T g hs hc hg]; simp

/-- Witness for C2: the spec's Paris scenario, with a store holding
exactly the sentence and an echoing generation backend. -/
theorem c2_prompt_contains_text_then_question_witness :
    ∃ pre mid post : String,
      Call.genCall "tinyllama"
          (pre ++ "Paris is the capital of France." ++ mid
            ++ "What is the capital of France?" ++ post)
        ∈ (query
            (fun _ _ =>
              (Except.ok (StoreResult.mk [["Paris is the capital of France."]])
                : Except Unit StoreResult))
            (fun _ p => Except.ok (GenResult.mk p)) "What is the capital of France?").1 :=
  c2_prompt_contains_text_then_question
    (fun _ _ => Except.ok (StoreResult.mk [["Paris is the capital of France."]]))
    (fun _ p => Except.ok (GenResult.mk p)) "What is the capital of France?"
    "Paris is the capital of France." [] []
    (StoreResult.mk [["Paris is the capital of France."]]) rfl rfl

/-- C3 counterexample: with an empty store result and question
`"anything"`, the context is indeed `""`, but the prompt the handler
sends to the generation backend is
`"Context:\n\n\nQuestion: anything\n\nAnswer clearly and concisely:"`,
and the claimed marker `"Context:\n\nQuestion: anything"` (with only
two newlines after `Context:`) is NOT a substring of it: the template
always places one newline after `Context:` and two more after the
context, so an empty context yields three consecutive newlines. -/
theorem c3_marker_counterexample :
    extractContext (StoreResult.mk []) = some "" ∧
    (query (fun _ _ => (Except.ok (StoreResult.mk []) : Except Unit StoreResult))
        (fun _ p => Except.ok (GenResult.mk p)) "anything").1
      = [Call.storeQuery ["anything"] 1,
         Call.genCall "tinyllama"
           "Context:\n\n\nQuestion: anything\n\nAnswer clearly and concisely:"] ∧
    ¬ ∃ pre post,
        ("Context:\n\n\nQuestion: anything\n\nAnswer clearly and concisely:").data
          = pre ++ ("Context:\n\nQuestion: anything").data ++ post := by
  refine ⟨rfl, rfl, fun h => absurd (hasSub_of_decomp _ _ h) ?_⟩
  decide

/-- C3 as amended: when the store result is empty and the question is
`"anything"`, the context is the empty string and the prompt sent to
the generation backend contains, as a literal substring, the marker
consisting of `Context:`, a newline (from the template), the empty
context, a blank line, then `Question: anything` — that is, the
characters `Context:\n\n\nQuestion: anything`, with three newlines
between `Context:` and `Question:`. -/
theorem c3_marker_amended :
    extractContext (StoreResult.mk []) = some "" ∧
    (query (fun _ _ => (Except.ok (StoreResult.mk []) : Except Unit StoreResult))
        (fun _ p => Except.ok (GenResult.mk p)) "anything").1
      = [Call.storeQuery ["anything"] 1,
         Call.genCall "tinyllama"
           "Context:\n\n\nQuestion: anything\n\nAnswer clearly and concisely:"] ∧
    ∃ pre post,
        ("Context:\n\n\nQuestion: anything\n\nAnswer clearly and concisely:").data
          = pre ++ ("Context:\n\n\nQuestion: anything").data ++ post :=
  ⟨rfl, rfl, [], ("\n\nAnswer clearly and concisely:").data, by decide⟩

/-- C4: for every question `q`, whenever the handler returns
successfully, the returned value is the response object whose `answer`
field is a string equal to the `response` text the generation backend
returned for the prompt it was sent. -/
theorem c4_answer_equals_generated_text {ε : Type}
    (store : List String → Nat → Except ε StoreResult)
    (gen : String → String → Except ε GenResult) (q : String)
    (tr : List Call) (resp : Response)
    (h : query store gen q = (tr, Except.ok resp)) :
    ∃ p g, gen "tinyllama" p = Except.ok g ∧
      Call.genCall "tinyllama" p ∈ tr ∧ resp.answer = g.response := by
  cases hs : store [q] 1 with
  | error e => rw [query_store_error store gen q e hs] at h; simp at h
  | ok r =>
    cases hc : extractContext r with
    | none => rw [query_extract_none store gen q r hs hc] at h; simp at h
    | some ctx =>
      cases hg : gen "tinyllama" (promptTemplate ctx q) with
      | error e => rw [query_gen_error store gen q r ctx e hs hc hg] at h; simp at h
      | ok g =>
        rw [query_gen_ok store gen q r ctx g hs hc hg] at h
        have htr : [Call.storeQuery [q] 1,
            Call.genCall "tinyllama" (promptTemplate ctx q)] = tr := congrArg Prod.fst h
        have hresp : Response.mk g.response = resp := Except.ok.inj (congrArg Prod.snd h)
        refine ⟨promptTemplate ctx q, g, hg, ?_, ?_⟩
        · rw [← htr]; simp
        · rw [← hresp]

/-- Witness for C4 at a concrete empty store, echoing generation
backend and question `"q0"`. -/
theorem c4_answer_equals_generated_text_witness :
    ∃ p g,
      (fun _ p0 => (Except.ok (GenResult.mk p0) : Except Unit GenResult)) "tinyllama" p
          = Except.ok g ∧
      Call.genCall "tinyllama" p
          ∈ [Call.storeQuery ["q0"] 1,
             Call.genCall "tinyllama" (promptTemplate "" "q0")] ∧
      (Response.mk (promptTemplate "" "q0")).answer = g.response :=
  c4_answer_equals_generated_text
    (fun _ _ => Except.ok (StoreResult.mk []))
    (fun _ p0 => Except.ok (GenResult.mk p0)) "q0"
    [Call.storeQuery ["q0"] 1, Call.genCall "tinyllama" (promptTemplate "" "q0")]
    (Response.mk (promptTemplate "" "q0")) rfl

/-- C5: for every question `q`, if either the vector-store lookup or
the generation-backend call raises an error, the handler performs no
local recovery: it propagates that same error unhandled (wrapped only
in the tag saying which collaborator raised it), makes no retry (the
trace holds exactly one store lookup and at most one generation call),
and returns no partial result. -/
theorem c5_errors_propagate_unhandled {ε : Type}
    (store : List String → Nat → Except ε StoreResult)
    (gen : String → String → Except ε GenResult) (q : String) :
    (∀ e, store [q] 1 = Except.error e →
      query store gen q
        = ([Call.storeQuery [q] 1], Except.error (HandlerError.storeError e))) ∧
    (∀ r ctx e, store [q] 1 = Except.ok r → extractContext r = some ctx →
      gen "tinyllama" (promptTemplate ctx q) = Except.error e →
      query store gen q
        = ([Call.storeQuery [q] 1, Call.genCall "tinyllama" (promptTemplate ctx q)],
           Except.error (HandlerError.genError e))) :=
  ⟨fun e hs => query_store_error store gen q e hs,
   fun r ctx e hs hc hg => query_gen_error store gen q r ctx e hs hc hg⟩

/-- Witness for C5: a store that raises error `7` makes the request
fail with exactly that store error after a single lookup. -/
theorem c5_errors_propagate_unhandled_witness :
    query (fun _ _ => (Except.error 7 : Except Nat StoreResult))
        (fun _ _ => Except.error 9) "q0"
      = ([Call.storeQuery ["q0"] 1], Except.error (HandlerError.storeError 7)) :=
  (c5_errors_propagate_unhandled (fun _ _ => Except.error 7)
      (fun _ _ => Except.error 9) "q0").1 7 rfl

/-- C6: the context extraction of line 12 guards only on the outer
`documents` list being empty.  For the store result whose `documents`
field is `[[]]` (non-empty outer list, empty first inner list — the
shape a real store returns for an empty collection),
`results["documents"][0][0]` raises IndexError instead of yielding the
empty-string context, so the whole request fails; extraction succeeds
exactly when the `documents` list is empty or its first inner list is
non-empty. -/
theorem c6_index_error_on_empty_inner_list :
    extractContext (StoreResult.mk [[]]) = none ∧
    (∀ (ε : Type) (gen : String → String → Except ε GenResult) (q : String),
      query (fun _ _ => Except.ok (StoreResult.mk [[]])) gen q
        = ([Call.storeQuery [q] 1], Except.error HandlerError.indexError)) ∧
    (∀ r : StoreResult, (extractContext r).isSome = true ↔
      r.documents = [] ∨ ∃ T rest ds, r.documents = (T :: rest) :: ds) := by
  refine ⟨rfl, ?_, ?_⟩
  · intro ε gen q
    exact query_extract_none _ gen q (StoreResult.mk [[]]) rfl rfl
  · intro r
    cases r with
    | mk docs =>
      cases docs with
      | nil => simp [extractContext]
      | cons d ds =>
        cases d with
        | nil => simp [extractContext]
        | cons T rest => simp [extractContext]

/-- C7: running the handler twice against an unchanged store and a
deterministic generation backend yields identical responses; the
handler introduces no nondeterminism, since its result depends only on
the store's answer to the single lookup it makes, the generation
backend and the question. -/
theorem c7_deterministic_responses {ε : Type}
    (storeRunOne storeRunTwo : List String → Nat → Except ε StoreResult)
    (gen : String → String → Except ε GenResult) (q : String)
    (hsame : storeRunOne [q] 1 = storeRunTwo [q] 1) :
    query storeRunOne gen q = query storeRunTwo gen q := by
  unfold query
  rw [hsame]

/-- Witness for C7 with two syntactically different stores that agree
on the lookup the handler makes. -/
theorem c7_deterministic_responses_witness :
    query
        (fun _ n => if n = 1
          then (Except.ok (StoreResult.mk [["d0"]]) : Except Unit StoreResult)
          else Except.error ())
        (fun _ p => Except.ok (GenResult.mk p)) "q0"
      = query (fun _ _ => Except.ok (StoreResult.mk [["d0"]]))
          (fun _ p => Except.ok (GenResult.mk p)) "q0" :=
  c7_deterministic_responses
    (fun _ n => if n = 1 then Except.ok (StoreResult.mk [["d0"]]) else Except.error ())
    (fun _ _ => Except.ok (StoreResult.mk [["d0"]]))
    (fun _ p => Except.ok (GenResult.mk p)) "q0" rfl

/-- C8: for every question `q`, handling a `POST /query` request
performs no write to the document store: the trace of outbound calls
never contains a store write, so no document is created, mutated or
deleted and the store's state after the request equals its state
before. -/
theorem c8_no_store_writes {ε : Type}
    (store : List String → Nat → Except ε StoreResult)
    (gen : String → String → Except ε GenResult) (q : String) :
    Call.storeWrite ∉ (query store gen q).1 := by
  cases hs : store [q] 1 with
  | error e => rw [query_store_error store gen q e hs]; simp
  | ok r =>
    cases hc : extractContext r with
    | none => rw [query_extract_none store gen q r hs hc]; simp
    | some ctx =>
      cases hg : gen "tinyllama" (promptTemplate ctx q) with
      | error e => rw [query_gen_error store gen q r ctx e hs hc hg]; simp
      | ok g => rw [query_gen_ok store gen q r ctx g hs hc hg]; simp

/-- C9: for every question `q` (including the empty string), the
handler issues exactly one nearest-neighbor lookup against the
document store, passing `q` through unchanged as the single query text
and requesting exactly one result: the store lookups in the trace are
exactly `[Call.storeQuery [q] 1]`. -/
theorem c9_exactly_one_lookup {ε : Type}
    (store : List String → Nat → Except ε StoreResult)
    (gen : String → String → Except ε GenResult) (q : String) :
    List.filter isStoreLookup (query store gen q).1 = [Call.storeQuery [q] 1] := by
  cases hs : store [q] 1 with
  | error e => rw [query_store_error store gen q e hs]; rfl
  | ok r =>
    cases hc : extractContext r with
    | none => rw [query_extract_none store gen q r hs hc]; rfl
    | some ctx =>
      cases hg : gen "tinyllama" (promptTemplate ctx q) with
      | error e => rw [query_gen_error store gen q r ctx e hs hc hg]; rfl
      | ok g => rw [query_gen_ok store gen q r ctx g hs hc hg]; rfl

/-- C10: `GET /` always returns the same fixed payload, independent of
any stored data or backend state: `root` is a constant taking no
inputs, containing a `message` string and an `endpoints` object
listing the available endpoints. -/
theorem c10_root_is_static :
    root = RootResponse.mk "NextWork RAG API is running"
      [("POST /query", "Query the knowledge base with a question"),
       ("GET /docs", "Interactive API documentation (Swagger UI)"),
       ("GET /redoc", "Alternative API documentation (ReDoc)")] := rfl
